import Mathlib

/-!
# Verification of the agent-pro-platform core resilience layer

Shallow embedding of `packages/core/src/resilience.ts`, `errors.ts` and the
runtime's `execute` / `executeWithRetry` orchestration
(`packages/core/src/index.ts`), together with proofs of the spec's claims
about them.

Modelling conventions:
* `Date.now()` is a `Nat` passed explicitly to every operation that reads it.
* JavaScript number-or-undefined fields are `Option Nat`; JS truthiness of
  such a field (`undefined` and `0` are falsy) is the `truthy` predicate.
* Thrown values are `JsError` records.  The dynamic class tag of a thrown
  error (`error instanceof AgentTimeoutError`) is encoded by the `name`
  field, which every class in `errors.ts` sets to its own class name; the
  `instanceof AgentError` test is encoded by the `isAgentError` flag, true
  exactly for the classes of `errors.ts`.
* `Math.random()` jitter is an explicit parameter (the sampled value).
* The backend invocation (`executeCore`, the external collaborator of the
  spec) is a parameter `core : Nat → Except JsError String` giving the
  outcome of the attempt with each zero-based index; the `Promise.race`
  against the timeout timer is resolved by an explicit `timerWins` flag,
  since real time interleaving is outside a pure embedding.
-/

namespace AgentPro

/-- Circuit breaker state, `resilience.ts` line 45:
`'closed' | 'open' | 'half-open'` (`open` is a Lean keyword, rendered
`opened`). -/
inductive CircuitState where
  | closed
  | opened
  | halfOpen
deriving DecidableEq, Repr

/-- `CircuitBreakerConfig`, `resilience.ts` lines 50-54. -/
structure CircuitBreakerConfig where
  failureThreshold : Nat
  successThreshold : Nat
  timeout : Nat
deriving DecidableEq, Repr

/-- The mutable fields of class `CircuitBreaker` (`resilience.ts` lines
59-65) together with its config. -/
structure CircuitBreaker where
  state : CircuitState
  failures : Nat
  successes : Nat
  lastFailureTime : Option Nat
  nextAttemptTime : Option Nat
  config : CircuitBreakerConfig
deriving DecidableEq, Repr

/-- Field initializers of `CircuitBreaker` (`resilience.ts` lines 60-64):
`closed`, zero counters, no timestamps. -/
def CircuitBreaker.initial (config : CircuitBreakerConfig) : CircuitBreaker :=
  { state := .closed
    failures := 0
    successes := 0
    lastFailureTime := none
    nextAttemptTime := none
    config := config }

/-- JS truthiness of a `number | undefined` field: `undefined` and `0` are
falsy, every other number is truthy. -/
def truthy : Option Nat → Bool
  | none => false
  | some t => t != 0

/-- `CircuitBreaker.isOpen` (`resilience.ts` lines 71-85).  Returns the
updated breaker (the lazy `open → half-open` transition mutates it) and the
boolean result.  `now` is `Date.now()`. -/
def CircuitBreaker.isOpen (cb : CircuitBreaker) (now : Nat) :
    CircuitBreaker × Bool :=
  if cb.state = .closed then
    (cb, false)
  else if cb.state = .opened ∧ truthy cb.nextAttemptTime then
    if cb.nextAttemptTime.getD 0 ≤ now then
      ({ cb with state := .halfOpen, nextAttemptTime := none }, false)
    else
      (cb, decide (cb.state = .opened))
  else
    (cb, decide (cb.state = .opened))

/-- `CircuitBreaker.recordSuccess` (`resilience.ts` lines 90-100):
unconditionally clears `failures`; in `half-open` counts successes and
closes the circuit at `successThreshold`. -/
def CircuitBreaker.recordSuccess (cb : CircuitBreaker) : CircuitBreaker :=
  let cb := { cb with failures := 0 }
  if cb.state = .halfOpen then
    let cb := { cb with successes := cb.successes + 1 }
    if cb.config.successThreshold ≤ cb.successes then
      { cb with state := .closed, successes := 0 }
    else
      cb
  else
    cb

/-- `CircuitBreaker.setNextAttemptTime` (`resilience.ts` lines 161-163). -/
def CircuitBreaker.setNextAttemptTime (cb : CircuitBreaker) (now : Nat) :
    CircuitBreaker :=
  { cb with nextAttemptTime := some (now + cb.config.timeout) }

/-- `CircuitBreaker.recordFailure` (`resilience.ts` lines 105-117):
increments `failures` and stamps `lastFailureTime`; a failure in
`half-open` reopens immediately, otherwise the circuit opens once
`failures` reaches `failureThreshold`.  `now` is `Date.now()`. -/
def CircuitBreaker.recordFailure (cb : CircuitBreaker) (now : Nat) :
    CircuitBreaker :=
  let cb := { cb with failures := cb.failures + 1, lastFailureTime := some now }
  if cb.state = .halfOpen then
    ({ cb with state := .opened, successes := 0 }).setNextAttemptTime now
  else if cb.config.failureThreshold ≤ cb.failures then
    ({ cb with state := .opened }).setNextAttemptTime now
  else
    cb

/-- `CircuitBreaker.getState` (`resilience.ts` lines 122-131): performs the
same lazy `open → half-open` check as `isOpen`, then returns the state. -/
def CircuitBreaker.getState (cb : CircuitBreaker) (now : Nat) :
    CircuitBreaker × CircuitState :=
  if cb.state = .opened ∧ truthy cb.nextAttemptTime ∧
      cb.nextAttemptTime.getD 0 ≤ now then
    let cb := { cb with state := .halfOpen, nextAttemptTime := none }
    (cb, cb.state)
  else
    (cb, cb.state)

/-- `CircuitBreaker.reset` (`resilience.ts` lines 136-142). -/
def CircuitBreaker.reset (cb : CircuitBreaker) : CircuitBreaker :=
  { cb with
    state := .closed
    failures := 0
    successes := 0
    lastFailureTime := none
    nextAttemptTime := none }

/-! ## Error taxonomy (`errors.ts`) -/

/-- A thrown JavaScript error value.  `name` is the dynamic class tag (every
class in `errors.ts` assigns its class name to `this.name`), so
`e instanceof AgentTimeoutError` is `e.name = "AgentTimeoutError"`;
`isAgentError` encodes `e instanceof AgentError`, true for every class of
`errors.ts` and false for a plain `Error`.  The structured `metadata` bag is
not modelled; the typed extra fields of the specializations are captured by
the constructor arguments below where a claim needs them. -/
structure JsError where
  name : String
  message : String
  code : String
  retryable : Bool
  isAgentError : Bool
deriving DecidableEq, Repr

/-- Constructor of class `AgentError` (`errors.ts` lines 14-27); the
`retryable` default is `false`. -/
def AgentError.new (message : String) (code : String)
    (retryable : Bool := false) : JsError :=
  { name := "AgentError"
    message := message
    code := code
    retryable := retryable
    isAgentError := true }

/-- Constructor of class `AgentTimeoutError` (`errors.ts` lines 44-54):
code `AGENT_TIMEOUT`, retryable. -/
def AgentTimeoutError.new (operation : String) (timeout : Nat) : JsError :=
  { name := "AgentTimeoutError"
    message :=
      s!"Operation \x27{operation}\x27 timed out after {timeout}ms"
    code := "AGENT_TIMEOUT"
    retryable := true
    isAgentError := true }

/-- Constructor of class `AgentCircuitOpenError` (`errors.ts` lines
186-199): code `AGENT_CIRCUIT_OPEN`, non-retryable.  Defined in `errors.ts`
but, as proved below, not the error `AgentRuntime.execute` actually
throws on its circuit-open path. -/
def AgentCircuitOpenError.new : JsError :=
  { name := "AgentCircuitOpenError"
    message := "Circuit breaker is open"
    code := "AGENT_CIRCUIT_OPEN"
    retryable := false
    isAgentError := true }

/-! ## Retry (`resilience.ts` lines 169-213 and `index.ts` lines 460-494) -/

/-- `RetryConfig` (`resilience.ts` lines 35-40).  `baseDelay`, `maxDelay`
and `factor` are naturals (the source uses integral millisecond values). -/
structure RetryConfig where
  maxRetries : Nat
  baseDelay : Nat
  maxDelay : Nat
  factor : Nat
deriving DecidableEq, Repr

/-- `calculateDelay` (`resilience.ts` lines 202-206, identical to
`AgentRuntime.calculateDelay`, `index.ts` lines 605-610):
`min(baseDelay * factor^attempt + jitter, maxDelay)` where `jitter` is the
sampled value of `Math.random() * 0.1 * exponentialDelay`, passed in
explicitly. -/
def calculateDelay (attempt : Nat) (config : RetryConfig) (jitter : Nat) :
    Nat :=
  min (config.baseDelay * config.factor ^ attempt + jitter) config.maxDelay

/-- Observable trace of one run of a retry wrapper: the final outcome
(`.ok` for a return, `.error` for the thrown error), the number of times the
wrapped operation was invoked, and the delays slept between attempts, in
order. -/
structure RetryTrace (T : Type) where
  result : Except JsError T
  calls : Nat
  sleeps : List Nat
deriving Repr

/-- Loop body of `withRetry` (`resilience.ts` lines 169-197), as structural
recursion on the remaining retries (`remaining = maxRetries - attempt`).
`fn i` is the outcome of the `i`-th invocation of the wrapped operation and
`jitter i` the jitter sampled for attempt `i`.  Note: this function retries
on EVERY failure — the source's `withRetry` never consults the `retryable`
flag. -/
def withRetryGo {T : Type} (fn : Nat → Except JsError T)
    (config : RetryConfig) (jitter : Nat → Nat) :
    Nat → Nat → RetryTrace T
  | attempt, 0 =>
    match fn attempt with
    | .ok v => { result := .ok v, calls := 1, sleeps := [] }
    | .error e => { result := .error e, calls := 1, sleeps := [] }
  | attempt, remaining + 1 =>
    match fn attempt with
    | .ok v => { result := .ok v, calls := 1, sleeps := [] }
    | .error e =>
      let delay := calculateDelay attempt config (jitter attempt)
      let rest := withRetryGo fn config jitter (attempt + 1) remaining
      { result := rest.result
        calls := rest.calls + 1
        sleeps := delay :: rest.sleeps }

/-- `withRetry` (`resilience.ts` lines 169-197): `maxRetries + 1` total
attempts; the `onRetry` callback is pure observation and is not modelled
beyond the `sleeps` trace. -/
def withRetry {T : Type} (fn : Nat → Except JsError T)
    (config : RetryConfig) (jitter : Nat → Nat) : RetryTrace T :=
  withRetryGo fn config jitter 0 config.maxRetries

/-- Loop body of `AgentRuntime.executeWithRetry` (`index.ts` lines
460-494).  Identical to `withRetryGo` except for the classification check
at `index.ts` lines 475-478: an error that is an `AgentError` with
`retryable` false is re-thrown immediately, before the last-attempt test,
with no delay computed and no sleep. -/
def executeWithRetryGo {T : Type} (core : Nat → Except JsError T)
    (config : RetryConfig) (jitter : Nat → Nat) :
    Nat → Nat → RetryTrace T
  | attempt, 0 =>
    match core attempt with
    | .ok v => { result := .ok v, calls := 1, sleeps := [] }
    | .error e => { result := .error e, calls := 1, sleeps := [] }
  | attempt, remaining + 1 =>
    match core attempt with
    | .ok v => { result := .ok v, calls := 1, sleeps := [] }
    | .error e =>
      if e.isAgentError && !e.retryable then
        { result := .error e, calls := 1, sleeps := [] }
      else
        let delay := calculateDelay attempt config (jitter attempt)
        let rest := executeWithRetryGo core config jitter (attempt + 1) remaining
        { result := rest.result
          calls := rest.calls + 1
          sleeps := delay :: rest.sleeps }

/-- `AgentRuntime.executeWithRetry` (`index.ts` lines 460-494).  `core i`
is the outcome of the `i`-th invocation of `executeCore` (the backend
boundary of the spec). -/
def executeWithRetry {T : Type} (core : Nat → Except JsError T)
    (config : RetryConfig) (jitter : Nat → Nat) : RetryTrace T :=
  executeWithRetryGo core config jitter 0 config.maxRetries

/-! ## Runtime orchestration (`index.ts` lines 295-648) -/

/-- `ExecutionStatus` (`types.ts`): the per-execution state machine. -/
inductive ExecutionStatus where
  | pending
  | running
  | completed
  | failed
  | timeout
  | cancelled
deriving DecidableEq, Repr

/-- The fields of `ExecutionResult` (`types.ts`) that the claims under
verification constrain.  `id`, `toolCalls`, `messages`, `usage` and
`metadata` are carried by the source record but not touched by any claim
and are omitted.  Initial sentinels (`index.ts` lines 393-401): status
`pending`, empty output, duration `0`, no error. -/
structure ExecutionResult where
  status : ExecutionStatus
  output : String
  duration : Nat
  error : Option String
deriving DecidableEq, Repr

/-- The effective timeout of one `execute` call, `index.ts` line 385:
`config.timeout || this.config.timeout` — JS truthiness, so an override of
`0` (and an absent override) falls through to the configured default. -/
def effectiveTimeout (override : Option Nat) (defaultTimeout : Nat) : Nat :=
  match override with
  | some t => if t = 0 then defaultTimeout else t
  | none => defaultTimeout

/-- `AgentRuntime.validateConfig` (`index.ts` lines 345-372): temperature
in [0,2], maxTokens in [1,128000], maxIterations in [1,100]; each
violation raises a non-retryable `INVALID_CONFIG` error.  Temperature is a
rational (the source value is a float; no claim depends on rounding). -/
def validateConfig (temperature : ℚ) (maxTokens maxIterations : Nat) :
    Except JsError Unit :=
  if temperature < 0 ∨ 2 < temperature then
    .error (AgentError.new "Temperature must be between 0 and 2"
      "INVALID_CONFIG" false)
  else if maxTokens < 1 ∨ 128000 < maxTokens then
    .error (AgentError.new "maxTokens must be between 1 and 128000"
      "INVALID_CONFIG" false)
  else if maxIterations < 1 ∨ 100 < maxIterations then
    .error (AgentError.new "maxIterations must be between 1 and 100"
      "INVALID_CONFIG" false)
  else
    .ok ()

/-- The runtime state an `execute` call reads: initialization flag, the
validated options, the configured default timeout, the retry config and
the optional circuit breaker (`none` when `circuitBreaker.enabled` is
false, mirroring `index.ts` lines 296-313). -/
structure RuntimeState where
  isInitialized : Bool
  temperature : ℚ
  maxTokens : Nat
  maxIterations : Nat
  defaultTimeout : Nat
  retry : RetryConfig
  circuitBreaker : Option CircuitBreaker

/-- The external inputs of one `execute` call that a pure embedding must
make explicit: the backend outcome per attempt index, the sampled jitter
per attempt, whether the timeout timer wins `Promise.race` (`index.ts`
line 424), and the clock readings at entry (`startTime`, line 384) and in
the catch/finally blocks (`endTime`, lines 441 and 445). -/
structure ExecEnv where
  core : Nat → Except JsError String
  jitter : Nat → Nat
  timerWins : Bool
  startTime : Nat
  endTime : Nat

/-- Everything observable about one `execute` call: the returned result,
the error caught by the catch block (if any), the number of invocations the
retried backend call performs (the race does not cancel it; `0` iff the
retry loop never ran), the backoff sleeps of that retried call, the circuit
breaker afterwards, and the effective timeout used for the race. -/
structure ExecuteOutcome where
  result : ExecutionResult
  caught : Option JsError
  backendCalls : Nat
  sleeps : List Nat
  breaker : Option CircuitBreaker
  timeoutUsed : Nat

/-- `AgentRuntime` initialization (`index.ts` lines 318-340): a no-op when
already initialized, otherwise `validateConfig` may raise.  (Metrics
initialization never raises and is outside the claims.) -/
def ensureInitialized (rt : RuntimeState) : Except JsError Unit :=
  if rt.isInitialized then .ok ()
  else validateConfig rt.temperature rt.maxTokens rt.maxIterations

/-- The `try / catch / finally` body of `AgentRuntime.execute`
(`index.ts` lines 383-454), after initialization succeeded.

* circuit-open path (lines 404-411): throws
  `new AgentError('Circuit breaker is open', 'CIRCUIT_OPEN', false)`,
  which the catch block turns into status `failed`; the catch block calls
  `recordFailure` (line 441) — also on this path;
* race (lines 416-424): the timer throws
  `new AgentTimeoutError('execution', timeout)` when it wins, else the
  retried call's own settlement is the outcome;
* catch (lines 436-443): status is `timeout` exactly when the caught error
  is an `instanceof AgentTimeoutError`, else `failed`; `result.error` is
  the error's message;
* success (lines 426-433): status `completed`, `recordSuccess`;
* finally (lines 444-452): `duration = Date.now() - startTime` on every
  path. -/
def executeBody (rt : RuntimeState) (cfgTimeout : Option Nat)
    (env : ExecEnv) : ExecuteOutcome :=
  let timeout := effectiveTimeout cfgTimeout rt.defaultTimeout
  let duration := env.endTime - env.startTime
  match rt.circuitBreaker with
  | some cb =>
    let checked := cb.isOpen env.startTime
    if checked.2 then
      let e := AgentError.new "Circuit breaker is open" "CIRCUIT_OPEN" false
      { result := { status := .failed, output := "", duration := duration
                    error := some e.message }
        caught := some e
        backendCalls := 0
        sleeps := []
        breaker := some (checked.1.recordFailure env.endTime)
        timeoutUsed := timeout }
    else
      let trace := executeWithRetry env.core rt.retry env.jitter
      let raced : Except JsError String :=
        if env.timerWins then .error (AgentTimeoutError.new "execution" timeout)
        else trace.result
      match raced with
      | .ok out =>
        { result := { status := .completed, output := out
                      duration := duration, error := none }
          caught := none
          backendCalls := trace.calls
          sleeps := trace.sleeps
          breaker := some checked.1.recordSuccess
          timeoutUsed := timeout }
      | .error e =>
        { result := { status := if e.name = "AgentTimeoutError"
                        then .timeout else .failed
                      output := "", duration := duration
                      error := some e.message }
          caught := some e
          backendCalls := trace.calls
          sleeps := trace.sleeps
          breaker := some (checked.1.recordFailure env.endTime)
          timeoutUsed := timeout }
  | none =>
    let trace := executeWithRetry env.core rt.retry env.jitter
    let raced : Except JsError String :=
      if env.timerWins then .error (AgentTimeoutError.new "execution" timeout)
      else trace.result
    match raced with
    | .ok out =>
      { result := { status := .completed, output := out
                    duration := duration, error := none }
        caught := none
        backendCalls := trace.calls
        sleeps := trace.sleeps
        breaker := none
        timeoutUsed := timeout }
    | .error e =>
      { result := { status := if e.name = "AgentTimeoutError"
                      then .timeout else .failed
                    output := "", duration := duration
                    error := some e.message }
        caught := some e
        backendCalls := trace.calls
        sleeps := trace.sleeps
        breaker := none
        timeoutUsed := timeout }

/-- `AgentRuntime.execute` (`index.ts` lines 377-455): `await
this.initialize()` runs outside the try block, so a configuration
validation failure propagates as a raised error; everything after it is the
total `executeBody`, whose catch block converts every thrown error into the
returned result. -/
def execute (rt : RuntimeState) (cfgTimeout : Option Nat) (env : ExecEnv) :
    Except JsError ExecuteOutcome :=
  match ensureInitialized rt with
  | .error e => .error e
  | .ok _ => .ok (executeBody rt cfgTimeout env)

/-- The status classification of the catch block of `execute`
(`index.ts` line 437): no caught error is `completed` (lines 426-430), a
caught `error instanceof AgentTimeoutError` is `timeout`, any other caught
error is `failed`. -/
def statusFromCaught : Option JsError → ExecutionStatus
  | none => .completed
  | some e =>
    if e.name = "AgentTimeoutError" then ExecutionStatus.timeout
    else ExecutionStatus.failed

/-! ## Concrete instances used by witnesses and counterexamples -/

/-- A non-retryable agent error, as `AgentToolError` produces
(`errors.ts` lines 130-143). -/
def nonRetryableErr : JsError :=
  AgentError.new "tool failed" "AGENT_TOOL_ERROR" false

/-- A breaker sitting in `open` with a nonzero failure counter. -/
def cbOpenEx : CircuitBreaker :=
  { state := .opened, failures := 5, successes := 0
    lastFailureTime := some 3, nextAttemptTime := some 10
    config := { failureThreshold := 3, successThreshold := 2, timeout := 5 } }

/-- A breaker freshly arrived in `half-open`. -/
def cbHalfOpenEx : CircuitBreaker :=
  { state := .halfOpen, failures := 3, successes := 0
    lastFailureTime := some 0, nextAttemptTime := none
    config := { failureThreshold := 3, successThreshold := 2, timeout := 5 } }

/-- A breaker mid-probation in `half-open`: one success already recorded
(`successes = 1`), below the threshold 2. -/
def cbHalfOpenMidEx : CircuitBreaker :=
  { state := .halfOpen, failures := 0, successes := 1
    lastFailureTime := some 0, nextAttemptTime := none
    config := { failureThreshold := 3, successThreshold := 2, timeout := 5 } }

/-- A breaker that opened at time 5 with open-duration timeout 5
(deadline 10). -/
def cbDeadlineEx : CircuitBreaker :=
  { state := .opened, failures := 3, successes := 0
    lastFailureTime := some 5, nextAttemptTime := some 10
    config := { failureThreshold := 3, successThreshold := 2, timeout := 5 } }

/-- The breaker reached by the concrete operation sequence: three failures
at time 0 (opens, deadline 5), lazy transition to `half-open` at time 5,
one `recordSuccess`, then a failure at time 5 (reopens, deadline 10).  Its
failure counter is 1, below the threshold 3. -/
def c9trace : CircuitBreaker :=
  let cb := CircuitBreaker.initial
    { failureThreshold := 3, successThreshold := 2, timeout := 5 }
  let cb := cb.recordFailure 0
  let cb := cb.recordFailure 0
  let cb := cb.recordFailure 0
  let cb := (cb.getState 5).1
  let cb := cb.recordSuccess
  cb.recordFailure 5

/-- A breaker in `open` with deadline 100, owned by `rtOpen`. -/
def cbRtOpen : CircuitBreaker :=
  { state := .opened, failures := 5, successes := 0
    lastFailureTime := some 0, nextAttemptTime := some 100
    config := { failureThreshold := 5, successThreshold := 2, timeout := 60000 } }

/-- An initialized runtime whose breaker is `open` with deadline 100. -/
def rtOpen : RuntimeState :=
  { isInitialized := true, temperature := 1, maxTokens := 100
    maxIterations := 5, defaultTimeout := 60000
    retry := { maxRetries := 3, baseDelay := 1000, maxDelay := 30000, factor := 2 }
    circuitBreaker := some cbRtOpen }

/-- An execute call at time 0 (before the deadline 100) whose backend
would succeed. -/
def envOpen : ExecEnv :=
  { core := fun _ => .ok "out", jitter := fun _ => 0, timerWins := false
    startTime := 0, endTime := 3 }

/-- An initialized runtime with the circuit breaker disabled and no
retries. -/
def rtNoCb : RuntimeState :=
  { isInitialized := true, temperature := 1, maxTokens := 100
    maxIterations := 5, defaultTimeout := 60000
    retry := { maxRetries := 0, baseDelay := 1000, maxDelay := 30000, factor := 2 }
    circuitBreaker := none }

/-- An execute call whose backend settles — with a rejection that is an
`AgentTimeoutError` raised inside the backend — before the outer deadline
(`timerWins := false`). -/
def envBackendTimeout : ExecEnv :=
  { core := fun _ => .error (AgentTimeoutError.new "model_call" 5000)
    jitter := fun _ => 0, timerWins := false, startTime := 0, endTime := 42 }

/-- An execute call in which the timeout timer wins the race. -/
def envTimer : ExecEnv :=
  { core := fun _ => .ok "late", jitter := fun _ => 0, timerWins := true
    startTime := 0, endTime := 60000 }

/-- An execute call whose backend succeeds immediately. -/
def envPlain : ExecEnv :=
  { core := fun _ => .ok "done", jitter := fun _ => 0, timerWins := false
    startTime := 10, endTime := 25 }

/-! ## Helper lemmas -/

/-- One `recordFailure` outside `half-open` that stays below the
threshold: only the failure counter and the last-failure timestamp move. -/
theorem recordFailure_notHalfOpen_below (b : CircuitBreaker) (t : Nat)
    (hs : ¬ b.state = .halfOpen)
    (hlt : b.failures + 1 < b.config.failureThreshold) :
    b.recordFailure t =
      { b with failures := b.failures + 1, lastFailureTime := some t } := by
  have h2 : ¬ b.config.failureThreshold ≤ b.failures + 1 := by omega
  simp [CircuitBreaker.recordFailure, hs, h2]

/-- One `recordFailure` outside `half-open` that reaches the threshold:
the circuit opens (or stays open) and the next-attempt deadline is
scheduled. -/
theorem recordFailure_notHalfOpen_reach (b : CircuitBreaker) (t : Nat)
    (hs : ¬ b.state = .halfOpen)
    (hge : b.config.failureThreshold ≤ b.failures + 1) :
    b.recordFailure t =
      { b with state := .opened, failures := b.failures + 1
               lastFailureTime := some t
               nextAttemptTime := some (t + b.config.timeout) } := by
  simp [CircuitBreaker.recordFailure, CircuitBreaker.setNextAttemptTime,
    hs, hge]

/-- One `recordFailure` in `half-open` reopens the circuit immediately,
clearing the success counter and scheduling the deadline — no threshold is
consulted. -/
theorem recordFailure_halfOpen (b : CircuitBreaker) (t : Nat)
    (hs : b.state = .halfOpen) :
    b.recordFailure t =
      { b with state := .opened, failures := b.failures + 1, successes := 0
               lastFailureTime := some t
               nextAttemptTime := some (t + b.config.timeout) } := by
  simp [CircuitBreaker.recordFailure, CircuitBreaker.setNextAttemptTime, hs]

/-- One `recordSuccess` in `half-open` below the success threshold: clears
failures, counts the success, stays `half-open`. -/
theorem recordSuccess_halfOpen_below (b : CircuitBreaker)
    (hs : b.state = .halfOpen)
    (hlt : b.successes + 1 < b.config.successThreshold) :
    b.recordSuccess = { b with failures := 0, successes := b.successes + 1 } := by
  have h2 : ¬ b.config.successThreshold ≤ b.successes + 1 := by omega
  simp [CircuitBreaker.recordSuccess, hs, h2]

/-- One `recordSuccess` in `half-open` that reaches the success threshold
closes the circuit. -/
theorem recordSuccess_halfOpen_reach (b : CircuitBreaker)
    (hs : b.state = .halfOpen)
    (hge : b.config.successThreshold ≤ b.successes + 1) :
    b.recordSuccess = { b with state := .closed, failures := 0, successes := 0 } := by
  simp [CircuitBreaker.recordSuccess, hs, hge]

/-- While the breaker stays below the failure threshold, iterated
`recordFailure` from a clean `closed` breaker keeps it `closed` and counts
the failures. -/
theorem recordFailure_iterate_closed (t : Nat) (cb : CircuitBreaker)
    (hs : cb.state = .closed) (h0 : cb.failures = 0) :
    ∀ k, k < cb.config.failureThreshold →
      ((fun b => CircuitBreaker.recordFailure b t)^[k] cb).state = .closed ∧
      ((fun b => CircuitBreaker.recordFailure b t)^[k] cb).failures = k ∧
      ((fun b => CircuitBreaker.recordFailure b t)^[k] cb).config = cb.config := by
  intro k
  induction k with
  | zero => intro _; exact ⟨hs, h0, rfl⟩
  | succ n ih =>
    intro hlt
    obtain ⟨hst, hfl, hcf⟩ := ih (Nat.lt_of_succ_lt hlt)
    rw [Function.iterate_succ_apply',
      recordFailure_notHalfOpen_below _ t (by rw [hst]; simp)
        (by rw [hfl, hcf]; omega)]
    exact ⟨hst, by simp [hfl], hcf⟩

/-- While the success counter stays below the success threshold, iterated
`recordSuccess` from `half-open` stays in `half-open` and counts the
successes. -/
theorem recordSuccess_iterate_halfOpen (cb : CircuitBreaker)
    (hs : cb.state = .halfOpen) :
    ∀ k, cb.successes + k < cb.config.successThreshold →
      (CircuitBreaker.recordSuccess^[k] cb).state = .halfOpen ∧
      (CircuitBreaker.recordSuccess^[k] cb).successes = cb.successes + k ∧
      (CircuitBreaker.recordSuccess^[k] cb).config = cb.config := by
  intro k
  induction k with
  | zero => intro _; exact ⟨hs, rfl, rfl⟩
  | succ n ih =>
    intro hlt
    obtain ⟨hst, hsc, hcf⟩ := ih (by omega)
    rw [Function.iterate_succ_apply',
      recordSuccess_halfOpen_below _ hst (by rw [hsc, hcf]; omega)]
    exact ⟨hst, by simp [hsc, Nat.add_assoc], hcf⟩

/-- The `timeoutUsed` field of every execute call is the effective timeout
(the truthiness-selected override-or-default). -/
theorem executeBody_timeoutUsed (rt : RuntimeState) (c : Option Nat)
    (env : ExecEnv) :
    (executeBody rt c env).timeoutUsed = effectiveTimeout c rt.defaultTimeout := by
  unfold executeBody
  cases rt.circuitBreaker <;> dsimp only <;> (repeat' split) <;> rfl

/-- The result's `duration` is stamped `endTime - startTime` on every exit
path of `executeBody` (the `finally` block). -/
theorem executeBody_duration (rt : RuntimeState) (c : Option Nat)
    (env : ExecEnv) :
    (executeBody rt c env).result.duration = env.endTime - env.startTime := by
  unfold executeBody
  cases rt.circuitBreaker <;> dsimp only <;> (repeat' split) <;> rfl

/-- The result's status is determined by the caught error exactly as the
catch block of `execute` computes it: no caught error means `completed`, a
caught `AgentTimeoutError` means `timeout`, any other caught error means
`failed`. -/
theorem executeBody_status_eq (rt : RuntimeState) (c : Option Nat)
    (env : ExecEnv) :
    (executeBody rt c env).result.status =
      statusFromCaught (executeBody rt c env).caught := by
  unfold executeBody
  cases rt.circuitBreaker <;> dsimp only <;> (repeat' split) <;>
    simp_all [statusFromCaught, AgentError.new]

/-- Every error `validateConfig` raises is a non-retryable
`INVALID_CONFIG` error. -/
theorem validateConfig_error (temp : ℚ) (mt mi : Nat) (e : JsError)
    (h : validateConfig temp mt mi = .error e) :
    e.code = "INVALID_CONFIG" ∧ e.retryable = false := by
  unfold validateConfig at h
  repeat' split at h
  all_goals (try simp at h)
  all_goals (subst h; exact ⟨rfl, rfl⟩)

/-! ## Claims about the circuit breaker -/

/-- C2, as stated, is false: `recordSuccess` in state `open` does change
the consecutive-failure counter — line 91 of `resilience.ts` clears it
unconditionally.  Concretely, on an `open` breaker with 5 recorded
failures, `recordSuccess` drops the counter from 5 to 0. -/
theorem recordSuccess_open_counterexample :
    cbOpenEx.state = .opened ∧
    cbOpenEx.recordSuccess.failures ≠ cbOpenEx.failures := by decide

/-- C2 (amended): for every CircuitBreaker in state `open`,
`recordSuccess()` leaves the state, the consecutive-success counter, the
scheduled next-attempt deadline and the last-failure timestamp unchanged,
but resets the consecutive-failure counter to 0. -/
theorem recordSuccess_open_frame (cb : CircuitBreaker)
    (hs : cb.state = .opened) :
    cb.recordSuccess.state = cb.state ∧
    cb.recordSuccess.successes = cb.successes ∧
    cb.recordSuccess.nextAttemptTime = cb.nextAttemptTime ∧
    cb.recordSuccess.lastFailureTime = cb.lastFailureTime ∧
    cb.recordSuccess.failures = 0 := by
  simp [CircuitBreaker.recordSuccess, hs]

theorem recordSuccess_open_frame_witness :
    cbOpenEx.recordSuccess.state = cbOpenEx.state ∧
    cbOpenEx.recordSuccess.successes = cbOpenEx.successes ∧
    cbOpenEx.recordSuccess.nextAttemptTime = cbOpenEx.nextAttemptTime ∧
    cbOpenEx.recordSuccess.lastFailureTime = cbOpenEx.lastFailureTime ∧
    cbOpenEx.recordSuccess.failures = 0 :=
  recordSuccess_open_frame cbOpenEx rfl

/-- C6: with `failureThreshold = N ≥ 1`, starting from a `closed` breaker
with a zero failure counter, exactly N consecutive `recordFailure()` calls
transition the breaker to `open`, while N−1 such calls leave it
`closed`. -/
theorem recordFailure_threshold_opens (cb : CircuitBreaker) (t : Nat)
    (hs : cb.state = .closed) (h0 : cb.failures = 0)
    (hN : 1 ≤ cb.config.failureThreshold) :
    ((fun b => CircuitBreaker.recordFailure b t)^[cb.config.failureThreshold] cb).state
      = .opened ∧
    ((fun b => CircuitBreaker.recordFailure b t)^[cb.config.failureThreshold - 1] cb).state
      = .closed := by
  obtain ⟨hst, hfl, hcf⟩ := recordFailure_iterate_closed t cb hs h0
    (cb.config.failureThreshold - 1) (by omega)
  refine ⟨?_, hst⟩
  have hsub : cb.config.failureThreshold = (cb.config.failureThreshold - 1) + 1 := by
    omega
  rw [hsub, Function.iterate_succ_apply',
    recordFailure_notHalfOpen_reach _ t (by rw [hst]; simp)
      (by rw [hfl, hcf]; omega)]

theorem recordFailure_threshold_opens_witness :
    ((fun b => CircuitBreaker.recordFailure b 0)^[2] (CircuitBreaker.initial ⟨2, 1, 5⟩)).state
      = CircuitState.opened ∧
    ((fun b => CircuitBreaker.recordFailure b 0)^[2 - 1] (CircuitBreaker.initial ⟨2, 1, 5⟩)).state
      = CircuitState.closed :=
  recordFailure_threshold_opens (CircuitBreaker.initial ⟨2, 1, 5⟩) 0 rfl rfl
    (by decide)

/-- C7: from the entry state of `half-open` (success counter 0, as every
entry into `half-open` leaves it), `successThreshold = M ≥ 1` consecutive
`recordSuccess()` calls transition the breaker to `closed` and fewer than
M leave it `half-open`; and — for EVERY breaker in `half-open`, at any
point of probation, whatever its success counter — a single
`recordFailure()` transitions it immediately to `open`, regardless of
`failureThreshold`, resetting the success counter to 0 and scheduling the
reopen deadline. -/
theorem halfOpen_thresholds :
    (∀ cb : CircuitBreaker, cb.state = .halfOpen → cb.successes = 0 →
      1 ≤ cb.config.successThreshold →
      (CircuitBreaker.recordSuccess^[cb.config.successThreshold] cb).state
        = .closed ∧
      (∀ k, k < cb.config.successThreshold →
        (CircuitBreaker.recordSuccess^[k] cb).state = .halfOpen)) ∧
    (∀ (cb : CircuitBreaker) (t : Nat), cb.state = .halfOpen →
      (cb.recordFailure t).state = .opened ∧
      (cb.recordFailure t).successes = 0 ∧
      (cb.recordFailure t).nextAttemptTime = some (t + cb.config.timeout)) := by
  constructor
  · intro cb hs h0 hM
    constructor
    · obtain ⟨hst, hsc, hcf⟩ := recordSuccess_iterate_halfOpen cb hs
        (cb.config.successThreshold - 1) (by omega)
      have hsub : cb.config.successThreshold
          = (cb.config.successThreshold - 1) + 1 := by omega
      rw [hsub, Function.iterate_succ_apply',
        recordSuccess_halfOpen_reach _ hst (by rw [hsc, hcf]; omega)]
    · intro k hk
      exact (recordSuccess_iterate_halfOpen cb hs k (by omega)).1
  · intro cb t hs
    refine ⟨?_, ?_, ?_⟩ <;> rw [recordFailure_halfOpen _ _ hs]

theorem halfOpen_thresholds_witness :
    (CircuitBreaker.recordSuccess^[2] cbHalfOpenEx).state = CircuitState.closed ∧
    (CircuitBreaker.recordSuccess^[1] cbHalfOpenEx).state = CircuitState.halfOpen ∧
    cbHalfOpenMidEx.successes = 1 ∧
    (cbHalfOpenMidEx.recordFailure 9).state = CircuitState.opened ∧
    (cbHalfOpenMidEx.recordFailure 9).successes = 0 ∧
    (cbHalfOpenMidEx.recordFailure 9).nextAttemptTime = some 14 := by
  have h1 := halfOpen_thresholds.1 cbHalfOpenEx rfl rfl (by decide)
  have h2 := halfOpen_thresholds.2 cbHalfOpenMidEx 9 rfl
  exact ⟨h1.1, h1.2 1 (by decide), rfl, h2.1, h2.2.1, h2.2.2⟩

/-- C8: after the breaker opened with scheduled deadline T+D (D > 0, as
the config requires), `getState` at any time strictly before T+D reports
`open` and at or after T+D reports `half-open`; `isOpen` is true exactly
in the former case and false in `half-open` and `closed`. -/
theorem open_deadline_behavior (cb : CircuitBreaker) (T D t : Nat)
    (hs : cb.state = .opened) (hn : cb.nextAttemptTime = some (T + D))
    (hD : 0 < D) :
    (t < T + D → (cb.getState t).2 = .opened ∧ (cb.isOpen t).2 = true) ∧
    (T + D ≤ t → (cb.getState t).2 = .halfOpen ∧ (cb.isOpen t).2 = false) ∧
    (∀ b : CircuitBreaker,
      (b.state = .halfOpen → (b.isOpen t).2 = false) ∧
      (b.state = .closed → (b.isOpen t).2 = false)) := by
  have hne : T + D ≠ 0 := by omega
  refine ⟨?_, ?_, ?_⟩
  · intro hlt
    have hnle : ¬ (T + D ≤ t) := by omega
    constructor
    · simp [CircuitBreaker.getState, hs, hn, truthy, hne, hnle]
    · simp [CircuitBreaker.isOpen, hs, hn, truthy, hne, hnle]
  · intro hge
    constructor
    · simp [CircuitBreaker.getState, hs, hn, truthy, hne, hge]
    · simp [CircuitBreaker.isOpen, hs, hn, truthy, hne, hge]
  · intro b
    constructor <;> intro hb <;> simp [CircuitBreaker.isOpen, hb]

theorem open_deadline_behavior_witness :
    ((cbDeadlineEx.getState 7).2 = CircuitState.opened ∧
      (cbDeadlineEx.isOpen 7).2 = true) ∧
    ((cbDeadlineEx.getState 12).2 = CircuitState.halfOpen ∧
      (cbDeadlineEx.isOpen 12).2 = false) ∧
    (cbHalfOpenEx.isOpen 12).2 = false := by
  have h7 := open_deadline_behavior cbDeadlineEx 5 5 7 rfl rfl (by decide)
  have h12 := open_deadline_behavior cbDeadlineEx 5 5 12 rfl rfl (by decide)
  exact ⟨h7.1 (by decide), h12.2.1 (by decide), (h12.2.2 cbHalfOpenEx).1 rfl⟩

/-- C9, as stated, is false: the failure counter of an `open` breaker can
be below `failureThreshold` (reopening from `half-open` after a
`recordSuccess` left it at 1), and then a further `recordFailure` at time
t = 7 does NOT reschedule the next-attempt deadline to t + timeout: the
deadline stays at 10 instead of moving to 12. -/
theorem recordFailure_open_counterexample :
    c9trace.state = .opened ∧
    c9trace.failures < c9trace.config.failureThreshold ∧
    (c9trace.recordFailure 7).state = .opened ∧
    (c9trace.recordFailure 7).nextAttemptTime
      ≠ some (7 + c9trace.config.timeout) := by decide

/-- C9 (amended): `recordFailure` on an `open` breaker always keeps it
`open`; it reschedules the next-attempt deadline to t + timeout exactly
when the incremented failure counter has reached `failureThreshold`
(otherwise the deadline is left as it was).  The circuit-open rejection
path of `execute` does call `recordFailure` on the breaker, so it extends
the open window only under that same condition. -/
theorem recordFailure_open_reschedule :
    (∀ (cb : CircuitBreaker) (t : Nat), cb.state = .opened →
      (cb.recordFailure t).state = .opened ∧
      (cb.recordFailure t).nextAttemptTime =
        (if cb.config.failureThreshold ≤ cb.failures + 1
         then some (t + cb.config.timeout) else cb.nextAttemptTime)) ∧
    (∀ (rt : RuntimeState) (c : Option Nat) (env : ExecEnv)
        (cb : CircuitBreaker),
      rt.circuitBreaker = some cb → (cb.isOpen env.startTime).2 = true →
      (executeBody rt c env).breaker =
        some ((cb.isOpen env.startTime).1.recordFailure env.endTime)) := by
  constructor
  · intro cb t hs
    have hns : ¬ cb.state = CircuitState.halfOpen := by rw [hs]; simp
    by_cases hth : cb.config.failureThreshold ≤ cb.failures + 1
    · rw [recordFailure_notHalfOpen_reach _ t hns hth]
      simp [hth]
    · rw [recordFailure_notHalfOpen_below _ t hns (by omega)]
      simp [hth, hs]
  · intro rt c env cb hcb hopen
    simp [executeBody, hcb, hopen]

theorem recordFailure_open_reschedule_witness :
    ((cbOpenEx.recordFailure 20).state = CircuitState.opened ∧
      (cbOpenEx.recordFailure 20).nextAttemptTime =
        (if cbOpenEx.config.failureThreshold ≤ cbOpenEx.failures + 1
         then some (20 + cbOpenEx.config.timeout)
         else cbOpenEx.nextAttemptTime)) ∧
    (executeBody rtOpen none envOpen).breaker =
      some ((cbRtOpen.isOpen envOpen.startTime).1.recordFailure envOpen.endTime) :=
  ⟨recordFailure_open_reschedule.1 cbOpenEx 20 rfl,
   recordFailure_open_reschedule.2 rtOpen none envOpen cbRtOpen rfl rfl⟩

/-! ## Claims about the retry wrappers -/

/-- C1, as stated, is false for the standalone `withRetry` of
`resilience.ts`: that wrapper never consults the `retryable`
classification.  With `maxRetries = 2` and an operation that always fails
with a non-retryable `AgentError`, the operation is invoked 3 times, not
once, and two backoff sleeps are performed. -/
theorem withRetry_nonretryable_counterexample :
    nonRetryableErr.isAgentError = true ∧
    nonRetryableErr.retryable = false ∧
    (withRetry (T := String) (fun _ => .error nonRetryableErr)
      { maxRetries := 2, baseDelay := 10, maxDelay := 100, factor := 2 }
      (fun _ => 0)).calls = 3 ∧
    (withRetry (T := String) (fun _ => .error nonRetryableErr)
      { maxRetries := 2, baseDelay := 10, maxDelay := 100, factor := 2 }
      (fun _ => 0)).calls ≠ 1 ∧
    (withRetry (T := String) (fun _ => .error nonRetryableErr)
      { maxRetries := 2, baseDelay := 10, maxDelay := 100, factor := 2 }
      (fun _ => 0)).sleeps ≠ [] := by decide

/-- C1 (amended): the runtime's retry loop `executeWithRetry` does abort
immediately on an error that is an `AgentError` with `retryable = false`:
for such an error on the first attempt the operation is invoked exactly
once, that error is surfaced, and no sleep is performed.  The standalone
`withRetry` utility of `resilience.ts` performs no such classification
and retries every failure (see the counterexample). -/
theorem executeWithRetry_nonretryable_single_call {T : Type}
    (core : Nat → Except JsError T) (cfg : RetryConfig) (jitter : Nat → Nat)
    (e : JsError) (hcore : core 0 = .error e)
    (hA : e.isAgentError = true) (hr : e.retryable = false) :
    executeWithRetry core cfg jitter =
      { result := .error e, calls := 1, sleeps := [] } := by
  unfold executeWithRetry
  cases hm : cfg.maxRetries with
  | zero => simp [executeWithRetryGo, hcore]
  | succ r => simp [executeWithRetryGo, hcore, hA, hr]

theorem executeWithRetry_nonretryable_single_call_witness :
    executeWithRetry (T := String) (fun _ => .error nonRetryableErr)
      { maxRetries := 3, baseDelay := 1000, maxDelay := 30000, factor := 2 }
      (fun _ => 0) =
      { result := .error nonRetryableErr, calls := 1, sleeps := [] } :=
  executeWithRetry_nonretryable_single_call _ _ _ nonRetryableErr rfl rfl rfl

/-! ## Claims about the orchestrator -/

/-- C3's claimed taxonomy code is wrong: with the breaker reporting open,
the error `execute` surfaces carries code `CIRCUIT_OPEN` (the inline
`AgentError` of `index.ts` lines 406-410), not `AGENT_CIRCUIT_OPEN` (the
code of the unused `AgentCircuitOpenError` class of `errors.ts`). -/
theorem execute_circuit_open_code_counterexample :
    ((execute rtOpen none envOpen).toOption.bind
      (fun out => out.caught.map (fun e => e.code))) = some "CIRCUIT_OPEN" ∧
    ((execute rtOpen none envOpen).toOption.bind
      (fun out => out.caught.map (fun e => e.code)))
      ≠ some "AGENT_CIRCUIT_OPEN" ∧
    AgentCircuitOpenError.new.code = "AGENT_CIRCUIT_OPEN" := by decide

/-- C3 (amended): whenever the circuit breaker reports open at the start
of `execute`, the call fails fast — no backend attempt is made and no
retry sleep happens — and the surfaced failure is the non-retryable
`AgentError` with message `Circuit breaker is open` and code
`CIRCUIT_OPEN` (not `AGENT_CIRCUIT_OPEN`), yielding status `failed`. -/
theorem execute_circuit_open_fail_fast (rt : RuntimeState) (c : Option Nat)
    (env : ExecEnv) (cb : CircuitBreaker)
    (hinit : ensureInitialized rt = .ok ())
    (hcb : rt.circuitBreaker = some cb)
    (hopen : (cb.isOpen env.startTime).2 = true) :
    execute rt c env = .ok (executeBody rt c env) ∧
    (executeBody rt c env).backendCalls = 0 ∧
    (executeBody rt c env).sleeps = [] ∧
    (executeBody rt c env).result.status = .failed ∧
    (executeBody rt c env).caught =
      some (AgentError.new "Circuit breaker is open" "CIRCUIT_OPEN" false) ∧
    (executeBody rt c env).result.error = some "Circuit breaker is open" ∧
    (AgentError.new "Circuit breaker is open" "CIRCUIT_OPEN" false).retryable
      = false := by
  refine ⟨by simp [execute, hinit], ?_, ?_, ?_, ?_, ?_, rfl⟩
  all_goals simp [executeBody, hcb, hopen, AgentError.new]

theorem execute_circuit_open_fail_fast_witness :
    execute rtOpen none envOpen = .ok (executeBody rtOpen none envOpen) ∧
    (executeBody rtOpen none envOpen).backendCalls = 0 ∧
    (executeBody rtOpen none envOpen).sleeps = [] ∧
    (executeBody rtOpen none envOpen).result.status = ExecutionStatus.failed ∧
    (executeBody rtOpen none envOpen).caught =
      some (AgentError.new "Circuit breaker is open" "CIRCUIT_OPEN" false) ∧
    (executeBody rtOpen none envOpen).result.error =
      some "Circuit breaker is open" ∧
    (AgentError.new "Circuit breaker is open" "CIRCUIT_OPEN" false).retryable
      = false :=
  execute_circuit_open_fail_fast rtOpen none envOpen cbRtOpen rfl rfl rfl

/-- C4, as stated, is false: status `timeout` is not reserved to the outer
deadline elapsing.  Here the retried backend call settles (the timer does
not win the race, `timerWins = false`) with a rejection that is an
`AgentTimeoutError` raised inside the backend, and the result status is
`timeout`, where the claim requires `failed` for every raised error other
than the deadline elapsing. -/
theorem backend_timeout_status_counterexample :
    envBackendTimeout.timerWins = false ∧
    (executeBody rtNoCb none envBackendTimeout).result.status
      = ExecutionStatus.timeout ∧
    (executeBody rtNoCb none envBackendTimeout).result.status
      ≠ ExecutionStatus.failed := by decide

/-- C4 (amended): the result status is classified from the caught error by
dynamic class, exactly as the catch block does: no error means
`completed`, a caught `AgentTimeoutError` — whether produced by the outer
deadline's timer or surfaced from the backend through the retry loop —
means `timeout`, and every other caught error (a non-retryable backend
error, the circuit being open) means `failed`.  When the timer wins the
race the caught error is the race's `AgentTimeoutError`, so the deadline
elapsing does yield status `timeout`. -/
theorem execute_status_classification :
    (∀ (rt : RuntimeState) (c : Option Nat) (env : ExecEnv),
      (executeBody rt c env).result.status =
        statusFromCaught (executeBody rt c env).caught) ∧
    (∀ (rt : RuntimeState) (c : Option Nat) (env : ExecEnv),
      env.timerWins = true → rt.circuitBreaker = none →
      (executeBody rt c env).caught =
        some (AgentTimeoutError.new "execution"
          (effectiveTimeout c rt.defaultTimeout)) ∧
      (executeBody rt c env).result.status = ExecutionStatus.timeout) := by
  constructor
  · exact executeBody_status_eq
  · intro rt c env htw hcb
    constructor <;> simp [executeBody, hcb, htw, AgentTimeoutError.new]

theorem execute_status_classification_witness :
    (executeBody rtNoCb none envTimer).caught =
      some (AgentTimeoutError.new "execution" 60000) ∧
    (executeBody rtNoCb none envTimer).result.status
      = ExecutionStatus.timeout :=
  execute_status_classification.2 rtNoCb none envTimer rfl rfl

/-- C5: `execute` raises past its boundary only for configuration
validation failures at initialization (non-retryable `INVALID_CONFIG`
errors); on every other path it returns a result whose status is one of
the terminal values `completed` / `failed` / `timeout` — never the
sentinels `pending` or `running` — and whose duration is stamped with the
elapsed time in the finally block. -/
theorem execute_total_terminal (rt : RuntimeState) (c : Option Nat)
    (env : ExecEnv) :
    (∀ e : JsError, execute rt c env = .error e →
      ensureInitialized rt = .error e ∧ e.code = "INVALID_CONFIG" ∧
      e.retryable = false) ∧
    (∀ out : ExecuteOutcome, execute rt c env = .ok out →
      (out.result.status = ExecutionStatus.completed ∨
        out.result.status = ExecutionStatus.failed ∨
        out.result.status = ExecutionStatus.timeout) ∧
      out.result.status ≠ ExecutionStatus.pending ∧
      out.result.status ≠ ExecutionStatus.running ∧
      out.result.duration = env.endTime - env.startTime) := by
  constructor
  · intro e he
    have hi : ensureInitialized rt = .error e := by
      unfold execute at he
      cases hi2 : ensureInitialized rt with
      | ok u => rw [hi2] at he; simp at he
      | error e2 =>
        rw [hi2] at he
        simp at he
        subst he
        rfl
    refine ⟨hi, ?_⟩
    unfold ensureInitialized at hi
    by_cases hinit : rt.isInitialized = true
    · rw [if_pos hinit] at hi; cases hi
    · rw [if_neg hinit] at hi
      exact validateConfig_error rt.temperature rt.maxTokens
        rt.maxIterations e hi
  · intro out hout
    unfold execute at hout
    cases hi : ensureInitialized rt with
    | error e2 => rw [hi] at hout; cases hout
    | ok u =>
      rw [hi] at hout
      injection hout with h2
      subst h2
      have hst := executeBody_status_eq rt c env
      have hterm : (executeBody rt c env).result.status
          = ExecutionStatus.completed ∨
          (executeBody rt c env).result.status = ExecutionStatus.failed ∨
          (executeBody rt c env).result.status = ExecutionStatus.timeout := by
        rw [hst]
        cases h2 : (executeBody rt c env).caught with
        | none => simp [statusFromCaught]
        | some e =>
          by_cases hn : e.name = "AgentTimeoutError"
          · simp [statusFromCaught, hn]
          · simp [statusFromCaught, hn]
      exact ⟨hterm, by rcases hterm with h | h | h <;> simp [h],
        by rcases hterm with h | h | h <;> simp [h],
        executeBody_duration rt c env⟩

theorem execute_total_terminal_witness :
    ((executeBody rtNoCb none envPlain).result.status
        = ExecutionStatus.completed ∨
      (executeBody rtNoCb none envPlain).result.status
        = ExecutionStatus.failed ∨
      (executeBody rtNoCb none envPlain).result.status
        = ExecutionStatus.timeout) ∧
    (executeBody rtNoCb none envPlain).result.status
      ≠ ExecutionStatus.pending ∧
    (executeBody rtNoCb none envPlain).result.status
      ≠ ExecutionStatus.running ∧
    (executeBody rtNoCb none envPlain).result.duration = 15 :=
  (execute_total_terminal rtNoCb none envPlain).2
    (executeBody rtNoCb none envPlain) rfl

/-- C10: the effective timeout is selected by JS truthiness
(`config.timeout || this.config.timeout`), so a per-call override of `0`
is ignored — the race uses the configured default timeout, exactly as an
absent override does. -/
theorem zero_timeout_override_ignored (rt : RuntimeState) (env : ExecEnv)
    (d : Nat) :
    effectiveTimeout (some 0) d = d ∧
    effectiveTimeout none d = d ∧
    (executeBody rt (some 0) env).timeoutUsed = rt.defaultTimeout := by
  refine ⟨rfl, rfl, ?_⟩
  rw [executeBody_timeoutUsed]
  rfl

end AgentPro
